import Mathlib

set_option maxRecDepth 8192

/-!
Shallow embedding of the `advisor` package of the weather-service repository.

The repository contains two near-duplicate variants of the package; they are
embedded side by side (the second variant differs from the first only in the
byte sequence used for the degree sign inside the per-city weather summary,
and in omitting the streaming path).

External collaborators (the geocoding HTTP lookup, the weather service, the
Gemini client, and the gRPC transport) are modelled as an environment `Env`
of pure response functions; the orchestration logic itself — the loops,
string building, error wrapping, metric increments and chunk emission of
`getAdvice`, `generateAdvice`, `StreamAdvice` and `streamAdviceGeneration` —
is translated statement by statement from the Go source.

Go `float64` fields that the orchestrator only ever renders with `%.1f`
(temperature, wind speed) are modelled by their value in tenths as an `Int`;
`fmt.Sprintf` on the concrete format strings of the source is modelled by the
`runFmt` interpreter below.
-/

namespace WeatherAdvisor

/-- Proto message `CityData`: a requested city, identified by its free-text
location name. -/
structure CityData where
  location : String
deriving DecidableEq, Repr

/-- Proto message `AdvisorRequest`: an ordered batch of cities. -/
structure AdvisorRequest where
  cities : List CityData
deriving DecidableEq, Repr

/-- Proto message `AdvisorResponse`: the whole-advisory reply of the unary
path. -/
structure AdvisorResponse where
  advice : String
deriving DecidableEq, Repr

/-- Proto message `StreamAdviceResponse`: one streamed chunk. -/
structure StreamAdviceResponse where
  chunk : String
  isComplete : Bool
deriving DecidableEq, Repr

/-- Weather service reply for one coordinate pair.  The two `float64` fields
`Temperature` and `WindSpeed` are modelled in tenths (the orchestrator only
renders them via `%.1f`); `Humidity` is rendered via `%d`. -/
structure WeatherResponse where
  temperatureTenths : Int
  description : String
  humidity : Int
  windTenths : Int
deriving DecidableEq, Repr

/-- One part of a Gemini candidate: either a `genai.Text` part or some
non-text part (the Go code type-switches on `genai.Text`). -/
inductive GenPart where
  | text (s : String)
  | nonText
deriving DecidableEq, Repr

/-- One Gemini candidate with its content parts. -/
structure GenCandidate where
  parts : List GenPart
deriving DecidableEq, Repr

/-- One Gemini response: a list of candidates. -/
structure GenResponse where
  candidates : List GenCandidate
deriving DecidableEq, Repr

/-- The incremental Gemini iterator, viewed extensionally: `iter.Next()`
yields the elements of `responses` in order and afterwards returns the error
`finalErr` (in Go the iterator always eventually returns an error — the
end-of-data condition is itself reported as an error value, and the loop in
`streamAdviceGeneration` stops at the first error it sees, so the prefix of
successful responses together with the first error fully describes the
iteration). -/
structure GenStream where
  responses : List GenResponse
  finalErr : String
deriving DecidableEq, Repr

/-- Environment of external collaborators, as pure response functions:
`geocodeCity` is the nominatim lookup (location name to latitude/longitude,
in the same tenths-free opaque integer model — the orchestrator only passes
coordinates through), `getCurrentWeather` the weather service,
`generateContent` the single-shot Gemini call, `generateContentStream` the
incremental Gemini call, and `sendFail` the gRPC transport: `some (k, msg)`
means the `k`-th `stream.Send` of the call (0-based) fails with error
message `msg`, `none` means every send succeeds. -/
structure Env where
  geocodeCity : String → Except String (Int × Int)
  getCurrentWeather : Int × Int → Except String WeatherResponse
  generateContent : String → Except String GenResponse
  generateContentStream : String → GenStream
  sendFail : Option (Nat × String)

/-- Prometheus state touched by one call: the `advisor_requests_total`
counter pair and the number of `advisor_request_duration_seconds`
observations. -/
structure Metrics where
  successCount : Nat
  errorCount : Nat
  durationSamples : Nat
deriving DecidableEq, Repr

/-- Model of `advisorRequests.WithLabelValues("success").Inc()`. -/
def Metrics.incSuccess (m : Metrics) : Metrics :=
  { m with successCount := m.successCount + 1 }

/-- Model of `advisorRequests.WithLabelValues("error").Inc()`. -/
def Metrics.incError (m : Metrics) : Metrics :=
  { m with errorCount := m.errorCount + 1 }

/-- Model of the deferred `timer.ObserveDuration()`. -/
def Metrics.observe (m : Metrics) : Metrics :=
  { m with durationSamples := m.durationSamples + 1 }

/-- Rendering of a tenths-scaled value the way Go `%.1f` prints the
corresponding one-decimal float: optional sign, integer part, dot, one
decimal digit. -/
def fmtF1 (tenths : Int) : String :=
  (if tenths < 0 then "-" else "") ++
    toString (tenths.natAbs / 10) ++ "." ++ toString (tenths.natAbs % 10)

/-- Format-string argument for the `fmt.Sprintf` model: `%s`, `%.1f` (tenths
model) or `%d`. -/
inductive FmtArg where
  | s (v : String)
  | f1 (tenths : Int)
  | d (v : Int)

/-- Interpreter for the package's `fmt.Sprintf` calls, covering exactly the
verbs the source uses: `%s`, `%.1f`, `%d` and the literal `%%`. -/
def runFmt : List Char → List FmtArg → List Char
  | '%' :: 's' :: rest, FmtArg.s v :: args => v.data ++ runFmt rest args
  | '%' :: '.' :: '1' :: 'f' :: rest, FmtArg.f1 t :: args => (fmtF1 t).data ++ runFmt rest args
  | '%' :: 'd' :: rest, FmtArg.d v :: args => (toString v).data ++ runFmt rest args
  | '%' :: '%' :: rest, args => '%' :: runFmt rest args
  | c :: rest, args => c :: runFmt rest args
  | [], _ => []

/-- Model of `fmt.Sprintf`. -/
def sprintf (fmt : String) (args : List FmtArg) : String :=
  String.mk (runFmt fmt.data args)

/-- Model of Go `strings.HasPrefix` on character lists (helper for
`strings.Contains`). -/
def startsWithChars : List Char → List Char → Bool
  | _, [] => true
  | [], _ :: _ => false
  | c :: cs, p :: ps => c == p && startsWithChars cs ps

/-- Model of Go `strings.Contains` on character lists. -/
def containsChars : List Char → List Char → Bool
  | [], pat => pat.isEmpty
  | c :: rest, pat => startsWithChars (c :: rest) pat || containsChars rest pat

/-- Model of Go `strings.Contains`. -/
def strContains (s pat : String) : Bool :=
  containsChars s.data pat.data

/-- Format string of the per-city weather summary, first variant
(`part_000`, line 111/166): the degree sign is the single code point U+00B0. -/
def weatherInfoFmt : String :=
  "City: %s, Temp: %.1f°C, Condition: %s, Humidity: %d%%, Wind: %.1f m/s"

/-- Format string of the per-city weather summary, second variant
(`part_000`, line 343): the degree sign is preceded by a stray U+00C2
(`Â°`, a double-encoding artifact). -/
def weatherInfoFmtV2 : String :=
  "City: %s, Temp: %.1fÂ°C, Condition: %s, Humidity: %d%%, Wind: %.1f m/s"

/-- The `weatherInfo := fmt.Sprintf(infoFmt, city.Location, Temperature,
Description, Humidity, WindSpeed)` line, parametrised by the variant's
format string. -/
def formatWeatherInfoWith (infoFmt : String) (loc : String) (w : WeatherResponse) : String :=
  sprintf infoFmt
    [FmtArg.s loc, FmtArg.f1 w.temperatureTenths, FmtArg.s w.description,
     FmtArg.d w.humidity, FmtArg.f1 w.windTenths]

/-- Per-city weather summary of the first variant. -/
def formatWeatherInfo (loc : String) (w : WeatherResponse) : String :=
  formatWeatherInfoWith weatherInfoFmt loc w

/-- Per-city weather summary of the second variant. -/
def formatWeatherInfoV2 (loc : String) (w : WeatherResponse) : String :=
  formatWeatherInfoWith weatherInfoFmtV2 loc w

/-- Format string of the unary Gemini prompt (`generateAdvice`, identical in
both variants). -/
def unaryPromptFmt : String :=
  "Weather advisor. Based on this data provide practical advice: %s Include: summary, clothing advice, activity suggestions, places to visit if good weather, warnings. Keep it concise."

/-- The unary prompt: the template applied to the newline-join of the
per-city summaries (`strings.Join(weatherData, "\n")`). -/
def unaryPrompt (weatherData : List String) : String :=
  sprintf unaryPromptFmt [FmtArg.s (String.intercalate "\n" weatherData)]

/-- Format string of the streaming Gemini prompt (`streamAdviceGeneration`);
unlike the unary template it does not ask for places to visit. -/
def streamPromptFmt : String :=
  "Weather advisor. Based on this data provide practical advice: %s Include: summary, clothing advice, activity suggestions, warnings. Keep it concise."

/-- The streaming prompt. -/
def streamPrompt (weatherData : List String) : String :=
  sprintf streamPromptFmt [FmtArg.s (String.intercalate "\n" weatherData)]

/-- The `advice` builder loop of `generateAdvice`: concatenate the text
parts (a `strings.Builder` fold), silently skipping non-text parts. -/
def concatTextParts : List GenPart → String
  | [] => ""
  | GenPart.text s :: rest => s ++ concatTextParts rest
  | GenPart.nonText :: rest => concatTextParts rest

/-- The per-city loop of `getAdvice` (lines 98–114): resolve, fetch weather,
format; the first failure aborts with a wrapped error, incrementing the
error counter at the failure site.  Parametrised by the variant's summary
format string; returns the collected `weatherData` (or the error) together
with the metrics state. -/
def collectWeatherUnary (env : Env) (infoFmt : String) (m : Metrics) :
    List CityData → Except String (List String) × Metrics
  | [] => (Except.ok [], m)
  | city :: rest =>
    match env.geocodeCity city.location with
    | Except.error e =>
      (Except.error ("geocoding failed for " ++ city.location ++ ": " ++ e), m.incError)
    | Except.ok coord =>
      match env.getCurrentWeather coord with
      | Except.error e =>
        (Except.error ("weather request failed for " ++ city.location ++ ": " ++ e), m.incError)
      | Except.ok w =>
        match collectWeatherUnary env infoFmt m rest with
        | (Except.ok ws, m2) => (Except.ok (formatWeatherInfoWith infoFmt city.location w :: ws), m2)
        | (Except.error e, m2) => (Except.error e, m2)

/-- `generateAdvice` (identical in both variants): build the unary prompt,
call Gemini once, fail on call error or zero candidates, otherwise
concatenate the text parts of the first candidate.  The second component
records the prompts passed to the Gemini client. -/
def generateAdvice (env : Env) (weatherData : List String) :
    Except String String × List String :=
  let prompt := unaryPrompt weatherData
  match env.generateContent prompt with
  | Except.error e => (Except.error ("gemini API failed: " ++ e), [prompt])
  | Except.ok resp =>
    match resp.candidates with
    | [] => (Except.error "no response generated", [prompt])
    | c :: _ => (Except.ok (concatTextParts c.parts), [prompt])

/-- Observable outcome of one unary call: the gRPC result, the final metrics
state, and the prompts passed to the Gemini client during the call. -/
structure UnaryOutcome where
  result : Except String AdvisorResponse
  metrics : Metrics
  genPrompts : List String
deriving Repr

/-- `getAdvice`, parametrised by the variant's summary format string: the
deferred duration observation fires on every return path; each return path
increments exactly one counter first. -/
def getAdviceWith (infoFmt : String) (env : Env) (m : Metrics) (req : AdvisorRequest) :
    UnaryOutcome :=
  match collectWeatherUnary env infoFmt m req.cities with
  | (Except.error e, m1) =>
    { result := Except.error e, metrics := m1.observe, genPrompts := [] }
  | (Except.ok weatherData, m1) =>
    match generateAdvice env weatherData with
    | (Except.error e, ps) =>
      { result := Except.error ("advice generation failed: " ++ e),
        metrics := m1.incError.observe, genPrompts := ps }
    | (Except.ok advice, ps) =>
      { result := Except.ok { advice := advice },
        metrics := m1.incSuccess.observe, genPrompts := ps }

/-- `getAdvice` of the first variant (lines 93–123). -/
def getAdvice (env : Env) (m : Metrics) (req : AdvisorRequest) : UnaryOutcome :=
  getAdviceWith weatherInfoFmt env m req

/-- `getAdvice` of the second variant (lines 325–355); the only difference
from the first variant is the summary format string. -/
def getAdviceV2 (env : Env) (m : Metrics) (req : AdvisorRequest) : UnaryOutcome :=
  getAdviceWith weatherInfoFmtV2 env m req

/-- The per-city loop of `StreamAdvice` (lines 153–169): a failing city is
recorded in `failedCities` (with a ` (weather failed)` tag when the weather
fetch, rather than resolution, failed) and skipped; a successful city
contributes its summary to `weatherData`.  Returns
`(weatherData, failedCities)`. -/
def collectWeatherStream (env : Env) : List CityData → List String × List String
  | [] => ([], [])
  | city :: rest =>
    match env.geocodeCity city.location with
    | Except.error _ =>
      let (ws, fs) := collectWeatherStream env rest
      (ws, city.location :: fs)
    | Except.ok coord =>
      match env.getCurrentWeather coord with
      | Except.error _ =>
        let (ws, fs) := collectWeatherStream env rest
        (ws, (city.location ++ " (weather failed)") :: fs)
      | Except.ok w =>
        let (ws, fs) := collectWeatherStream env rest
        (formatWeatherInfo city.location w :: ws, fs)

/-- The diagnostic message built in `StreamAdvice` when no city produced
weather data (lines 171–175). -/
def diagnosticMessage (failedCities : List String) : String :=
  let base := "i could not get any weather data for any of the cities"
  let base2 :=
    if failedCities.length > 0 then
      base ++ "\nFailed to get weather data for: " ++ String.intercalate ", " failedCities
    else base
  base2 ++ "\nPlease check the city names and try again."

/-- Whether the `i`-th `stream.Send` of the call fails under the transport
model. -/
def sendFailsAt (sendFail : Option (Nat × String)) (i : Nat) : Bool :=
  match sendFail with
  | none => false
  | some (k, _) => i == k

/-- The transport error message of the failing send (empty when every send
succeeds). -/
def sendFailMsg (sendFail : Option (Nat × String)) : String :=
  match sendFail with
  | none => ""
  | some (_, msg) => msg

/-- The text parts of one candidate's part list, in order (the inner
`for _, part := range cand.Content.Parts` loop with its `genai.Text` type
switch). -/
def textsOfParts : List GenPart → List String
  | [] => []
  | GenPart.text s :: rest => s :: textsOfParts rest
  | GenPart.nonText :: rest => textsOfParts rest

/-- The fragments relayed for one list of candidates, in order (the middle
`for _, cand := range resp.Candidates` loop). -/
def fragmentsOfCandidates : List GenCandidate → List String
  | [] => []
  | c :: rest => textsOfParts c.parts ++ fragmentsOfCandidates rest

/-- The fragments relayed for one incremental response. -/
def fragmentsOfResponse (r : GenResponse) : List String :=
  fragmentsOfCandidates r.candidates

/-- The fragments relayed for the whole successful prefix of the iterator,
in emission order (the outer `for` loop over `iter.Next()`). -/
def fragmentsOfResponses : List GenResponse → List String
  | [] => []
  | r :: rest => fragmentsOfResponse r ++ fragmentsOfResponses rest

/-- Sequential relaying of the non-terminal fragment chunks: `i` is the index
of the next send within the call; the first failing send aborts with the
wrapped error of line 226 (`failed to send chunk: %v`).  Returns the chunks
successfully delivered and either the wrapped error or the next send
index. -/
def sendChunks (sendFail : Option (Nat × String)) (i : Nat) :
    List String → List StreamAdviceResponse × Except String Nat
  | [] => ([], Except.ok i)
  | t :: rest =>
    if sendFailsAt sendFail i then
      ([], Except.error ("failed to send chunk: " ++ sendFailMsg sendFail))
    else
      match sendChunks sendFail (i + 1) rest with
      | (cs, r) => ({ chunk := t, isComplete := false } :: cs, r)

/-- The end-of-data test of line 208: the iteration error is treated as
normal completion exactly when its message contains `"EOF"` or
`"iterator stopped"`. -/
def isEndOfDataErr (e : String) : Bool :=
  strContains e "EOF" || strContains e "iterator stopped"

/-- Observable outcome of `streamAdviceGeneration`: chunks delivered, the
function's error result, and the prompts passed to the Gemini client. -/
structure StreamGenOutcome where
  sent : List StreamAdviceResponse
  result : Except String Unit
  genPrompts : List String

/-- `streamAdviceGeneration` (lines 199–232): build the streaming prompt,
open the incremental Gemini iteration, relay every text part of every
candidate of every response as a non-terminal chunk, and at the iterator's
first error either send the terminal chunk (end-of-data errors; the send's
own error, if any, is returned unwrapped) or return the wrapped
`streaming failed` error. -/
def streamAdviceGeneration (env : Env) (weatherData : List String) : StreamGenOutcome :=
  let prompt := streamPrompt weatherData
  let gs := env.generateContentStream prompt
  match sendChunks env.sendFail 0 (fragmentsOfResponses gs.responses) with
  | (sent, Except.error e) =>
    { sent := sent, result := Except.error e, genPrompts := [prompt] }
  | (sent, Except.ok i) =>
    if isEndOfDataErr gs.finalErr then
      if sendFailsAt env.sendFail i then
        { sent := sent, result := Except.error (sendFailMsg env.sendFail),
          genPrompts := [prompt] }
      else
        { sent := sent ++ [{ chunk := "", isComplete := true }],
          result := Except.ok (), genPrompts := [prompt] }
    else
      { sent := sent, result := Except.error ("streaming failed: " ++ gs.finalErr),
        genPrompts := [prompt] }

/-- Observable outcome of one `StreamAdvice` call. -/
structure StreamOutcome where
  sent : List StreamAdviceResponse
  result : Except String Unit
  metrics : Metrics
  genPrompts : List String

/-- `StreamAdvice` (lines 147–197): collect per-city results tolerantly; with
no weather data, send the single diagnostic terminal chunk (success counted
iff that send succeeded, the raw send error returned otherwise); with data,
run `streamAdviceGeneration` and wrap its error as
`advice generation failed`. -/
def StreamAdvice (env : Env) (m : Metrics) (req : AdvisorRequest) : StreamOutcome :=
  let (weatherData, failedCities) := collectWeatherStream env req.cities
  if weatherData.length = 0 then
    let message := diagnosticMessage failedCities
    if sendFailsAt env.sendFail 0 then
      { sent := [], result := Except.error (sendFailMsg env.sendFail),
        metrics := m.incError.observe, genPrompts := [] }
    else
      { sent := [{ chunk := message, isComplete := true }], result := Except.ok (),
        metrics := m.incSuccess.observe, genPrompts := [] }
  else
    let g := streamAdviceGeneration env weatherData
    match g.result with
    | Except.error e =>
      { sent := g.sent, result := Except.error ("advice generation failed: " ++ e),
        metrics := m.incError.observe, genPrompts := g.genPrompts }
    | Except.ok _ =>
      { sent := g.sent, result := Except.ok (),
        metrics := m.incSuccess.observe, genPrompts := g.genPrompts }

/-- A city fails (for the given environment) when its resolution fails or,
resolution succeeding, its weather fetch fails. -/
def cityFails (env : Env) (c : CityData) : Bool :=
  match env.geocodeCity c.location with
  | Except.error _ => true
  | Except.ok coord =>
    match env.getCurrentWeather coord with
    | Except.error _ => true
    | Except.ok _ => false

/-- A city fails specifically at the weather fetch (resolution succeeded). -/
def cityWeatherFails (env : Env) (c : CityData) : Bool :=
  match env.geocodeCity c.location with
  | Except.error _ => false
  | Except.ok coord =>
    match env.getCurrentWeather coord with
    | Except.error _ => true
    | Except.ok _ => false

/-- The summary line a city contributes when it succeeds (first variant's
format), `none` when it fails. -/
def citySummary? (env : Env) (c : CityData) : Option String :=
  match env.geocodeCity c.location with
  | Except.error _ => none
  | Except.ok coord =>
    match env.getCurrentWeather coord with
    | Except.error _ => none
    | Except.ok w => some (formatWeatherInfo c.location w)

/-- The failed-city entry a city contributes when it fails (`none` when it
succeeds): the bare location on resolution failure, the tagged location on
weather failure. -/
def cityFailEntry? (env : Env) (c : CityData) : Option String :=
  match env.geocodeCity c.location with
  | Except.error _ => some c.location
  | Except.ok coord =>
    match env.getCurrentWeather coord with
    | Except.error _ => some (c.location ++ " (weather failed)")
    | Except.ok _ => none

/-- Modelled from the spec wording of §4.3: the per-city summary format
`City: <location>, Temp: <temperatureC to 1 decimal>°C, Condition:
<condition>, Humidity: <humidityPct>%, Wind: <windSpeedMS to 1 decimal>
m/s`, written as plain concatenation (to be compared with the source's
`fmt.Sprintf`-based `formatWeatherInfo`). -/
def specWeatherSummary (loc : String) (w : WeatherResponse) : String :=
  "City: " ++ loc ++ ", Temp: " ++ fmtF1 w.temperatureTenths ++ "°C, Condition: " ++
    w.description ++ ", Humidity: " ++ toString w.humidity ++ "%, Wind: " ++
    fmtF1 w.windTenths ++ " m/s"

/-- Modelled from the spec wording of §4.3: instructional template plus the
newline-joined per-city summaries, unary mode. -/
def specUnaryPrompt (weatherData : List String) : String :=
  "Weather advisor. Based on this data provide practical advice: " ++
    String.intercalate "\n" weatherData ++
    " Include: summary, clothing advice, activity suggestions, places to visit if good weather, warnings. Keep it concise."

/-- Modelled from the spec wording of §4.3: instructional template plus the
newline-joined per-city summaries, streaming mode (no places to visit). -/
def specStreamPrompt (weatherData : List String) : String :=
  "Weather advisor. Based on this data provide practical advice: " ++
    String.intercalate "\n" weatherData ++
    " Include: summary, clothing advice, activity suggestions, warnings. Keep it concise."

/-- Fresh metrics state used by the concrete test environments. -/
def m0 : Metrics :=
  { successCount := 0, errorCount := 0, durationSamples := 0 }

/-- Test weather observation: the Scenario A data of the spec
(22.5 °C, clear sky, 40 %, 3.2 m/s). -/
def wParis : WeatherResponse :=
  { temperatureTenths := 225, description := "clear sky", humidity := 40, windTenths := 32 }

/-- Test environment in which every resolution fails. -/
def envFailGeo : Env :=
  { geocodeCity := fun loc => Except.error ("no results found for city: " ++ loc),
    getCurrentWeather := fun _ => Except.error "unused",
    generateContent := fun _ => Except.error "unused",
    generateContentStream := fun _ => { responses := [], finalErr := "EOF" },
    sendFail := none }

/-- Test environment in which everything succeeds: every city resolves,
weather is `wParis`, the unary generator answers with one one-part
candidate, and the incremental generator emits two fragments and then the
end-of-data error. -/
def envAllOk : Env :=
  { geocodeCity := fun _ => Except.ok (488566, 23522),
    getCurrentWeather := fun _ => Except.ok wParis,
    generateContent := fun _ =>
      Except.ok { candidates := [{ parts := [GenPart.text "Wear sunscreen."] }] },
    generateContentStream := fun _ =>
      { responses :=
          [{ candidates := [{ parts := [GenPart.text "Sunny"] }] },
           { candidates := [{ parts := [GenPart.text " day."] }] }],
        finalErr := "EOF" },
    sendFail := none }

/-- Test environment in which the city `Atlantis` fails resolution, every
other city resolves, and the weather fetch fails for everyone on the
coordinates `(1, 1)` only. -/
def envMixed : Env :=
  { geocodeCity := fun loc =>
      if loc = "Atlantis" then Except.error ("no results found for city: " ++ loc)
      else if loc = "Rainville" then Except.ok (1, 1)
      else Except.ok (488566, 23522),
    getCurrentWeather := fun coord =>
      if coord = (1, 1) then Except.error "weather provider down" else Except.ok wParis,
    generateContent := fun _ =>
      Except.ok { candidates := [{ parts := [GenPart.text "Wear sunscreen."] }] },
    generateContentStream := fun _ =>
      { responses := [{ candidates := [{ parts := [GenPart.text "Sunny"] }] }],
        finalErr := "iterator stopped" },
    sendFail := none }

/-- Test environment whose incremental generator fails with a genuine
(non-end-of-data) error after one fragment. -/
def envStreamErr : Env :=
  { geocodeCity := fun _ => Except.ok (488566, 23522),
    getCurrentWeather := fun _ => Except.ok wParis,
    generateContent := fun _ => Except.error "unused",
    generateContentStream := fun _ =>
      { responses := [{ candidates := [{ parts := [GenPart.text "Sunny"] }] }],
        finalErr := "rpc error: context deadline exceeded" },
    sendFail := none }

/-- Test environment whose single-shot generator returns two candidates and
whose incremental generator returns the same two candidates in one
response. -/
def envTwoCandidates : Env :=
  { geocodeCity := fun _ => Except.ok (488566, 23522),
    getCurrentWeather := fun _ => Except.ok wParis,
    generateContent := fun _ =>
      Except.ok { candidates := [{ parts := [GenPart.text "A"] }, { parts := [GenPart.text "B"] }] },
    generateContentStream := fun _ =>
      { responses :=
          [{ candidates := [{ parts := [GenPart.text "A"] }, { parts := [GenPart.text "B"] }] }],
        finalErr := "EOF" },
    sendFail := none }

/-- Single-city request for Paris. -/
def reqParis : AdvisorRequest := { cities := [{ location := "Paris" }] }

/-- Single-city request for the unresolvable Atlantis. -/
def reqAtlantis : AdvisorRequest := { cities := [{ location := "Atlantis" }] }

/-- Two-city request: the unresolvable Atlantis, then the weather-less
Rainville. -/
def reqBothFail : AdvisorRequest :=
  { cities := [{ location := "Atlantis" }, { location := "Rainville" }] }

/-- Two-city request: Paris succeeds, Atlantis fails resolution. -/
def reqParisAtlantis : AdvisorRequest :=
  { cities := [{ location := "Paris" }, { location := "Atlantis" }] }

/-- The streaming collection loop is the pair of ordered projections: the
summaries of the successful cities and the failure entries of the failing
ones, each in original input order. -/
theorem collectWeatherStream_eq (env : Env) (cs : List CityData) :
    collectWeatherStream env cs =
      (cs.filterMap (citySummary? env), cs.filterMap (cityFailEntry? env)) := by
  induction cs with
  | nil => rfl
  | cons c rest ih =>
    cases hg : env.geocodeCity c.location with
    | error e =>
      simp [collectWeatherStream, citySummary?, cityFailEntry?, hg, ih]
    | ok coord =>
      cases hw : env.getCurrentWeather coord with
      | error e =>
        simp [collectWeatherStream, citySummary?, cityFailEntry?, hg, hw, ih]
      | ok w =>
        simp [collectWeatherStream, citySummary?, cityFailEntry?, hg, hw, ih]

/-- A city succeeds exactly when it contributes a summary. -/
theorem cityFails_false_iff_summary (env : Env) (c : CityData) :
    cityFails env c = false ↔ citySummary? env c ≠ none := by
  unfold cityFails citySummary?
  rcases hg : env.geocodeCity c.location with e | coord
  · simp [hg]
  · rcases hw : env.getCurrentWeather coord with e | w
    · simp [hg, hw]
    · simp [hg, hw]

/-- A city fails exactly when it contributes a failed-city entry. -/
theorem cityFails_true_iff_entry (env : Env) (c : CityData) :
    cityFails env c = true ↔ cityFailEntry? env c ≠ none := by
  unfold cityFails cityFailEntry?
  rcases hg : env.geocodeCity c.location with e | coord
  · simp [hg]
  · rcases hw : env.getCurrentWeather coord with e | w
    · simp [hg, hw]
    · simp [hg, hw]

/-- A weather-fetch failure contributes the tagged failed-city entry. -/
theorem cityWeatherFails_entry (env : Env) (c : CityData)
    (h : cityWeatherFails env c = true) :
    cityFailEntry? env c = some (c.location ++ " (weather failed)") := by
  unfold cityWeatherFails at h
  unfold cityFailEntry?
  rcases hg : env.geocodeCity c.location with e | coord
  · simp [hg] at h
  · rcases hw : env.getCurrentWeather coord with e | w
    · simp [hg, hw]
    · simp [hg, hw] at h

/-- The unary collection loop either succeeds leaving the metrics untouched
or fails having incremented the error counter exactly once. -/
theorem collectWeatherUnary_cases (env : Env) (infoFmt : String) (m : Metrics)
    (cs : List CityData) :
    (∃ ws, collectWeatherUnary env infoFmt m cs = (Except.ok ws, m)) ∨
    (∃ e, collectWeatherUnary env infoFmt m cs = (Except.error e, m.incError)) := by
  induction cs with
  | nil => exact Or.inl ⟨[], rfl⟩
  | cons c rest ih =>
    rcases hg : env.geocodeCity c.location with e | coord
    · exact Or.inr ⟨"geocoding failed for " ++ c.location ++ ": " ++ e,
        by simp [collectWeatherUnary, hg]⟩
    · rcases hw : env.getCurrentWeather coord with e | w
      · exact Or.inr ⟨"weather request failed for " ++ c.location ++ ": " ++ e,
          by simp [collectWeatherUnary, hg, hw]⟩
      · rcases ih with ⟨ws, hws⟩ | ⟨e, he⟩
        · exact Or.inl ⟨formatWeatherInfoWith infoFmt c.location w :: ws,
            by simp [collectWeatherUnary, hg, hw, hws]⟩
        · exact Or.inr ⟨e, by simp [collectWeatherUnary, hg, hw, he]⟩

/-- With a failing city in the list, the unary collection loop returns the
wrapped error of the first failing city, with the error counter incremented
once; the failing city and the underlying cause appear in the message. -/
theorem collectWeatherUnary_error (env : Env) (infoFmt : String) (m : Metrics)
    (cs : List CityData) (h : ∃ c ∈ cs, cityFails env c = true) :
    ∃ c ∈ cs, cityFails env c = true ∧ ∃ cause,
      (collectWeatherUnary env infoFmt m cs =
          (Except.error ("geocoding failed for " ++ c.location ++ ": " ++ cause),
            m.incError) ∨
        collectWeatherUnary env infoFmt m cs =
          (Except.error ("weather request failed for " ++ c.location ++ ": " ++ cause),
            m.incError)) := by
  induction cs with
  | nil => simp at h
  | cons c rest ih =>
    cases hg : env.geocodeCity c.location with
    | error e =>
      refine ⟨c, List.mem_cons_self c rest, ?_, e, Or.inl ?_⟩
      · simp [cityFails, hg]
      · simp [collectWeatherUnary, hg]
    | ok coord =>
      cases hw : env.getCurrentWeather coord with
      | error e =>
        refine ⟨c, List.mem_cons_self c rest, ?_, e, Or.inr ?_⟩
        · simp [cityFails, hg, hw]
        · simp [collectWeatherUnary, hg, hw]
      | ok w =>
        have hrest : ∃ x ∈ rest, cityFails env x = true := by
          rcases h with ⟨x, hx, hfx⟩
          rcases List.mem_cons.mp hx with rfl | hx2
          · exfalso
            simp [cityFails, hg, hw] at hfx
          · exact ⟨x, hx2, hfx⟩
        rcases ih hrest with ⟨x, hx, hfx, cause, hcase | hcase⟩
        · exact ⟨x, List.mem_cons_of_mem c hx, hfx, cause,
            Or.inl (by simp [collectWeatherUnary, hg, hw, hcase])⟩
        · exact ⟨x, List.mem_cons_of_mem c hx, hfx, cause,
            Or.inr (by simp [collectWeatherUnary, hg, hw, hcase])⟩

/-- With a failing city in the list the unary collection loop never reaches
the summary-formatting line, so its outcome does not depend on the variant's
format string. -/
theorem collectWeatherUnary_fmt_indep (env : Env) (f g : String) (m : Metrics)
    (cs : List CityData) (h : ∃ c ∈ cs, cityFails env c = true) :
    collectWeatherUnary env f m cs = collectWeatherUnary env g m cs := by
  induction cs with
  | nil => simp at h
  | cons c rest ih =>
    cases hg : env.geocodeCity c.location with
    | error e => simp [collectWeatherUnary, hg]
    | ok coord =>
      cases hw : env.getCurrentWeather coord with
      | error e => simp [collectWeatherUnary, hg, hw]
      | ok w =>
        have hrest : ∃ x ∈ rest, cityFails env x = true := by
          rcases h with ⟨x, hx, hfx⟩
          rcases List.mem_cons.mp hx with rfl | hx2
          · exfalso
            simp [cityFails, hg, hw] at hfx
          · exact ⟨x, hx2, hfx⟩
        have heq := ih hrest
        rcases collectWeatherUnary_error env f m rest hrest with
          ⟨x, hx, hfx, cause, hcase | hcase⟩ <;>
          simp [collectWeatherUnary, hg, hw, hcase, heq ▸ hcase]

/-- Unfolding equation of `sendChunks` at a failing send. -/
theorem sendChunks_cons_fail (sf : Option (Nat × String)) (i : Nat) (t : String)
    (rest : List String) (hf : sendFailsAt sf i = true) :
    sendChunks sf i (t :: rest) =
      ([], Except.error ("failed to send chunk: " ++ sendFailMsg sf)) := by
  simp [sendChunks, hf]

/-- Unfolding equation of `sendChunks` at a succeeding send. -/
theorem sendChunks_cons_suc (sf : Option (Nat × String)) (i : Nat) (t : String)
    (rest : List String) (hf : sendFailsAt sf i = false) :
    sendChunks sf i (t :: rest) =
      ({ chunk := t, isComplete := false } :: (sendChunks sf (i + 1) rest).1,
        (sendChunks sf (i + 1) rest).2) := by
  simp only [sendChunks, hf, Bool.false_eq_true, if_false]

/-- Every chunk delivered by the fragment-relaying loop is non-terminal. -/
theorem sendChunks_not_complete (sf : Option (Nat × String)) (i : Nat)
    (ts : List String) :
    ∀ ch ∈ (sendChunks sf i ts).1, ch.isComplete = false := by
  induction ts generalizing i with
  | nil => simp [sendChunks]
  | cons t rest ih =>
    intro ch hch
    rcases hf : sendFailsAt sf i with hfv | hfv
    · rw [sendChunks_cons_suc sf i t rest hf] at hch
      simp at hch
      rcases hch with rfl | hch2
      · rfl
      · exact ih (i + 1) ch hch2
    · rw [sendChunks_cons_fail sf i t rest hf] at hch
      simp at hch

/-- When the fragment-relaying loop reports success it has delivered exactly
one non-terminal chunk per fragment, in order, and advanced the send index by
the number of fragments. -/
theorem sendChunks_ok (sf : Option (Nat × String)) (i : Nat) (ts : List String)
    (j : Nat) (h : (sendChunks sf i ts).2 = Except.ok j) :
    (sendChunks sf i ts).1 = ts.map (fun t => { chunk := t, isComplete := false }) ∧
      j = i + ts.length := by
  induction ts generalizing i with
  | nil =>
    simp [sendChunks] at h
    simp [sendChunks, h]
  | cons t rest ih =>
    rcases hf : sendFailsAt sf i with hfv | hfv
    · rw [sendChunks_cons_suc sf i t rest hf] at h ⊢
      simp only at h
      rcases ih (i + 1) h with ⟨h1, hlen⟩
      refine ⟨by simp [h1], ?_⟩
      simp only [List.length_cons]
      omega
    · rw [sendChunks_cons_fail sf i t rest hf] at h
      simp at h

/-- With a transport that never fails, the fragment-relaying loop delivers
every fragment. -/
theorem sendChunks_none (i : Nat) (ts : List String) :
    sendChunks none i ts =
      (ts.map (fun t => { chunk := t, isComplete := false }), Except.ok (i + ts.length)) := by
  induction ts generalizing i with
  | nil => simp [sendChunks]
  | cons t rest ih =>
    simp [sendChunks, sendFailsAt, ih]
    omega

/-- The diagnostic message is never empty: it always ends with the retry
instruction. -/
theorem diagnosticMessage_ne_empty (failedCities : List String) :
    diagnosticMessage failedCities ≠ "" := by
  unfold diagnosticMessage
  intro h
  have hd := congrArg String.data h
  by_cases hl : failedCities.length > 0 <;>
    simp [hl, String.data_append] at hd

/-- C1: for every request with at least one city in which some city fails
resolution or weather fetch, the unary `getAdvice` returns an error naming
the failing city and the underlying cause, returns no (partial) advisory,
and never invokes the generator — in particular when the first city fails
resolution the generator is never invoked. -/
theorem getAdvice_fail_fast (env : Env) (m : Metrics) (req : AdvisorRequest)
    (h : ∃ c ∈ req.cities, cityFails env c = true) :
    (getAdvice env m req).genPrompts = [] ∧
    ∃ c ∈ req.cities, cityFails env c = true ∧ ∃ cause,
      ((getAdvice env m req).result =
          Except.error ("geocoding failed for " ++ c.location ++ ": " ++ cause) ∨
        (getAdvice env m req).result =
          Except.error ("weather request failed for " ++ c.location ++ ": " ++ cause)) := by
  rcases collectWeatherUnary_error env weatherInfoFmt m req.cities h with
    ⟨c, hc, hf, cause, hcase | hcase⟩
  · exact ⟨by simp [getAdvice, getAdviceWith, hcase], c, hc, hf, cause,
      Or.inl (by simp [getAdvice, getAdviceWith, hcase])⟩
  · exact ⟨by simp [getAdvice, getAdviceWith, hcase], c, hc, hf, cause,
      Or.inr (by simp [getAdvice, getAdviceWith, hcase])⟩

/-- Witness for C1: Atlantis fails resolution, the generator is not called
and the call errors. -/
theorem getAdvice_fail_fast_witness :
    (∃ c ∈ reqAtlantis.cities, cityFails envFailGeo c = true) ∧
    ((getAdvice envFailGeo m0 reqAtlantis).genPrompts = [] ∧
      ∃ c ∈ reqAtlantis.cities, cityFails envFailGeo c = true ∧ ∃ cause,
        ((getAdvice envFailGeo m0 reqAtlantis).result =
            Except.error ("geocoding failed for " ++ c.location ++ ": " ++ cause) ∨
          (getAdvice envFailGeo m0 reqAtlantis).result =
            Except.error ("weather request failed for " ++ c.location ++ ": " ++ cause))) :=
  ⟨⟨{ location := "Atlantis" }, by simp [reqAtlantis], by rfl⟩,
    getAdvice_fail_fast envFailGeo m0 reqAtlantis
      ⟨{ location := "Atlantis" }, by simp [reqAtlantis], by rfl⟩⟩

/-- A unary call either succeeds having incremented the success counter once
or fails having incremented the error counter once; the duration is observed
once either way. -/
theorem getAdviceWith_outcome (infoFmt : String) (env : Env) (m : Metrics)
    (req : AdvisorRequest) :
    ((∃ a, (getAdviceWith infoFmt env m req).result = Except.ok a) ∧
      (getAdviceWith infoFmt env m req).metrics = m.incSuccess.observe) ∨
    ((∃ e, (getAdviceWith infoFmt env m req).result = Except.error e) ∧
      (getAdviceWith infoFmt env m req).metrics = m.incError.observe) := by
  rcases collectWeatherUnary_cases env infoFmt m req.cities with ⟨ws, hws⟩ | ⟨e, he⟩
  · rcases hga : env.generateContent (unaryPrompt ws) with e | resp
    · exact Or.inr ⟨⟨"advice generation failed: " ++ ("gemini API failed: " ++ e),
        by simp [getAdviceWith, hws, generateAdvice, hga]⟩,
        by simp [getAdviceWith, hws, generateAdvice, hga]⟩
    · rcases hc : resp.candidates with _ | ⟨c, cs⟩
      · exact Or.inr ⟨⟨"advice generation failed: " ++ "no response generated",
          by simp [getAdviceWith, hws, generateAdvice, hga, hc]⟩,
          by simp [getAdviceWith, hws, generateAdvice, hga, hc]⟩
      · exact Or.inl ⟨⟨{ advice := concatTextParts c.parts },
          by simp [getAdviceWith, hws, generateAdvice, hga, hc]⟩,
          by simp [getAdviceWith, hws, generateAdvice, hga, hc]⟩
  · exact Or.inr ⟨⟨e, by simp [getAdviceWith, he]⟩, by simp [getAdviceWith, he]⟩

/-- A streaming call either succeeds (diagnostic chunk delivered, or stream
relayed to completion) having incremented the success counter once, or fails
having incremented the error counter once; the duration is observed once
either way. -/
theorem StreamAdvice_outcome (env : Env) (m : Metrics) (req : AdvisorRequest) :
    ((StreamAdvice env m req).result = Except.ok () ∧
      (StreamAdvice env m req).metrics = m.incSuccess.observe) ∨
    ((∃ e, (StreamAdvice env m req).result = Except.error e) ∧
      (StreamAdvice env m req).metrics = m.incError.observe) := by
  unfold StreamAdvice
  rcases hcol : collectWeatherStream env req.cities with ⟨ws, fs⟩
  by_cases hlen : ws.length = 0
  · rcases hsf : sendFailsAt env.sendFail 0 with hv | hv
    · exact Or.inl ⟨by simp [hlen, hsf], by simp [hlen, hsf]⟩
    · exact Or.inr ⟨⟨sendFailMsg env.sendFail, by simp [hlen, hsf]⟩, by simp [hlen, hsf]⟩
  · rcases hg : (streamAdviceGeneration env ws).result with e | u
    · exact Or.inr ⟨⟨"advice generation failed: " ++ e, by simp [hlen, hg]⟩,
        by simp [hlen, hg]⟩
    · exact Or.inl ⟨by simp [hlen, hg], by simp [hlen, hg]⟩

/-- C7: every unary and every streaming call records exactly one outcome
count (success or error) and exactly one latency sample, wherever the call
terminates; a streaming call counts as success exactly when its result is
success — which includes the all-failed diagnostic case — and as error
exactly when it fails (relay failure or generation error). -/
theorem one_outcome_one_latency_per_call (env : Env) (m : Metrics) (req : AdvisorRequest) :
    ((getAdvice env m req).metrics.successCount + (getAdvice env m req).metrics.errorCount =
      m.successCount + m.errorCount + 1) ∧
    ((getAdvice env m req).metrics.durationSamples = m.durationSamples + 1) ∧
    ((StreamAdvice env m req).metrics.successCount +
        (StreamAdvice env m req).metrics.errorCount =
      m.successCount + m.errorCount + 1) ∧
    ((StreamAdvice env m req).metrics.durationSamples = m.durationSamples + 1) ∧
    ((StreamAdvice env m req).result = Except.ok () ↔
      (StreamAdvice env m req).metrics.successCount = m.successCount + 1) ∧
    ((∃ e, (StreamAdvice env m req).result = Except.error e) ↔
      (StreamAdvice env m req).metrics.errorCount = m.errorCount + 1) := by
  have hu : (getAdvice env m req).metrics = m.incSuccess.observe ∨
      (getAdvice env m req).metrics = m.incError.observe := by
    rcases getAdviceWith_outcome weatherInfoFmt env m req with ⟨_, h⟩ | ⟨_, h⟩
    · exact Or.inl h
    · exact Or.inr h
  refine ⟨?_, ?_, ?_, ?_, ?_, ?_⟩
  · rcases hu with h | h <;>
      simp [h, Metrics.incSuccess, Metrics.incError, Metrics.observe] <;> omega
  · rcases hu with h | h <;>
      simp [h, Metrics.incSuccess, Metrics.incError, Metrics.observe]
  · rcases StreamAdvice_outcome env m req with ⟨_, h⟩ | ⟨_, h⟩ <;>
      simp [h, Metrics.incSuccess, Metrics.incError, Metrics.observe] <;> omega
  · rcases StreamAdvice_outcome env m req with ⟨_, h⟩ | ⟨_, h⟩ <;>
      simp [h, Metrics.incSuccess, Metrics.incError, Metrics.observe]
  · rcases StreamAdvice_outcome env m req with ⟨hr, h⟩ | ⟨⟨e, hr⟩, h⟩
    · simp [hr, h, Metrics.incSuccess, Metrics.observe]
    · simp [hr, h, Metrics.incSuccess, Metrics.incError, Metrics.observe]
  · rcases StreamAdvice_outcome env m req with ⟨hr, h⟩ | ⟨⟨e, hr⟩, h⟩
    · simp [hr, h, Metrics.incSuccess, Metrics.incError, Metrics.observe]
    · simp [hr, h, Metrics.incSuccess, Metrics.incError, Metrics.observe]

/-- C9: a unary request with zero cities is not special-cased: `getAdvice`
invokes the generator once, with the prompt consisting of the instructional
template and no city summary lines, and returns whatever the generator
produces (the advice on success, the wrapped failure otherwise). -/
theorem getAdvice_empty_request (env : Env) (m : Metrics) :
    (getAdvice env m { cities := [] }).genPrompts = [unaryPrompt []] ∧
    unaryPrompt [] =
      "Weather advisor. Based on this data provide practical advice:  Include: summary, clothing advice, activity suggestions, places to visit if good weather, warnings. Keep it concise." ∧
    (∀ a, (generateAdvice env []).1 = Except.ok a →
      (getAdvice env m { cities := [] }).result = Except.ok { advice := a }) ∧
    (∀ e, (generateAdvice env []).1 = Except.error e →
      (getAdvice env m { cities := [] }).result =
        Except.error ("advice generation failed: " ++ e)) := by
  refine ⟨?_, by rfl, ?_, ?_⟩
  · rcases hga : env.generateContent (unaryPrompt []) with e | resp
    · simp [getAdvice, getAdviceWith, collectWeatherUnary, generateAdvice, hga]
    · rcases hc : resp.candidates with _ | ⟨c, cs⟩
      · simp [getAdvice, getAdviceWith, collectWeatherUnary, generateAdvice, hga, hc]
      · simp [getAdvice, getAdviceWith, collectWeatherUnary, generateAdvice, hga, hc]
  · intro a ha
    rcases hga : env.generateContent (unaryPrompt []) with e | resp
    · rw [generateAdvice, hga] at ha
      simp at ha
    · rcases hc : resp.candidates with _ | ⟨c, cs⟩
      · rw [generateAdvice, hga] at ha
        simp [hc] at ha
      · rw [generateAdvice, hga] at ha
        simp [hc] at ha
        simp [getAdvice, getAdviceWith, collectWeatherUnary, generateAdvice, hga, hc, ha]
  · intro e he
    rcases hga : env.generateContent (unaryPrompt []) with e2 | resp
    · rw [generateAdvice, hga] at he
      simp at he
      simp [getAdvice, getAdviceWith, collectWeatherUnary, generateAdvice, hga, he]
    · rcases hc : resp.candidates with _ | ⟨c, cs⟩
      · rw [generateAdvice, hga] at he
        simp [hc] at he
        simp [getAdvice, getAdviceWith, collectWeatherUnary, generateAdvice, hga, hc, he]
      · rw [generateAdvice, hga] at he
        simp [hc] at he

/-- Witness for C9: with the all-succeeding test environment, the empty
request is answered by the generator's advice. -/
theorem getAdvice_empty_request_witness :
    ((generateAdvice envAllOk []).1 = Except.ok "Wear sunscreen.") ∧
    (getAdvice envAllOk m0 { cities := [] }).result =
      Except.ok { advice := "Wear sunscreen." } :=
  ⟨rfl, (getAdvice_empty_request envAllOk m0).2.2.1 "Wear sunscreen." rfl⟩

/-- A failing city contributes no summary. -/
theorem cityFails_summary_none (env : Env) (c : CityData)
    (h : cityFails env c = true) : citySummary? env c = none := by
  by_contra hne
  have hfalse := (cityFails_false_iff_summary env c).mpr hne
  rw [h] at hfalse
  simp at hfalse

/-- The streaming generation helper always passes exactly the streaming
prompt over the given weather data to the generator, once. -/
theorem streamAdviceGeneration_prompts (env : Env) (wd : List String) :
    (streamAdviceGeneration env wd).genPrompts = [streamPrompt wd] := by
  rcases hr : sendChunks env.sendFail 0
      (fragmentsOfResponses (env.generateContentStream (streamPrompt wd)).responses) with
    ⟨sent, r⟩
  rcases r with e | i
  · simp [streamAdviceGeneration, hr]
  · by_cases heof : isEndOfDataErr (env.generateContentStream (streamPrompt wd)).finalErr = true
    · by_cases hsf : sendFailsAt env.sendFail i = true
      · simp [streamAdviceGeneration, hr, heof, hsf]
      · simp [streamAdviceGeneration, hr, heof, hsf]
    · simp [streamAdviceGeneration, hr, heof]

/-- C2: for every streaming request in which no city yields a weather
observation (every city fails, in particular when there are zero cities),
`StreamAdvice` emits exactly one chunk, terminal and with non-empty
diagnostic text, succeeds, and never invokes the generator; with zero
cities the message carries no failed-city list, and weather-caused failures
are listed with the ` (weather failed)` annotation. -/
theorem StreamAdvice_all_failed (env : Env) (m : Metrics) (req : AdvisorRequest)
    (hfail : ∀ c ∈ req.cities, cityFails env c = true)
    (hsend : env.sendFail = none) :
    (StreamAdvice env m req).sent =
      [{ chunk := diagnosticMessage (req.cities.filterMap (cityFailEntry? env)),
         isComplete := true }] ∧
    diagnosticMessage (req.cities.filterMap (cityFailEntry? env)) ≠ "" ∧
    (StreamAdvice env m req).genPrompts = [] ∧
    (StreamAdvice env m req).result = Except.ok () ∧
    (req.cities = [] →
      diagnosticMessage (req.cities.filterMap (cityFailEntry? env)) =
        "i could not get any weather data for any of the cities\nPlease check the city names and try again.") ∧
    (∀ c ∈ req.cities, cityWeatherFails env c = true →
      (c.location ++ " (weather failed)") ∈ req.cities.filterMap (cityFailEntry? env)) := by
  have hsum : ∀ c ∈ req.cities, citySummary? env c = none := fun c hc =>
    cityFails_summary_none env c (hfail c hc)
  have hws : req.cities.filterMap (citySummary? env) = [] := by
    rw [List.filterMap_eq_nil_iff]
    exact hsum
  have hmain : StreamAdvice env m req =
      { sent := [{ chunk := diagnosticMessage (req.cities.filterMap (cityFailEntry? env)),
                   isComplete := true }],
        result := Except.ok (), metrics := m.incSuccess.observe, genPrompts := [] } := by
    unfold StreamAdvice
    rw [collectWeatherStream_eq, hws]
    simp [hsend, sendFailsAt]
  refine ⟨by rw [hmain], diagnosticMessage_ne_empty _, by rw [hmain], by rw [hmain],
    ?_, ?_⟩
  · intro hnil
    rw [hnil]
    rfl
  · intro c hc hwf
    exact List.mem_filterMap.mpr ⟨c, hc, cityWeatherFails_entry env c hwf⟩

/-- Witness for C2: Atlantis fails resolution and Rainville fails the
weather fetch; the single diagnostic terminal chunk is emitted and the
generator stays uninvoked. -/
theorem StreamAdvice_all_failed_witness :
    ((∀ c ∈ reqBothFail.cities, cityFails envMixed c = true) ∧ envMixed.sendFail = none) ∧
    ((StreamAdvice envMixed m0 reqBothFail).sent =
      [{ chunk := diagnosticMessage (reqBothFail.cities.filterMap (cityFailEntry? envMixed)),
         isComplete := true }] ∧
    diagnosticMessage (reqBothFail.cities.filterMap (cityFailEntry? envMixed)) ≠ "" ∧
    (StreamAdvice envMixed m0 reqBothFail).genPrompts = [] ∧
    (StreamAdvice envMixed m0 reqBothFail).result = Except.ok () ∧
    (reqBothFail.cities = [] →
      diagnosticMessage (reqBothFail.cities.filterMap (cityFailEntry? envMixed)) =
        "i could not get any weather data for any of the cities\nPlease check the city names and try again.") ∧
    (∀ c ∈ reqBothFail.cities, cityWeatherFails envMixed c = true →
      (c.location ++ " (weather failed)") ∈
        reqBothFail.cities.filterMap (cityFailEntry? envMixed))) :=
  ⟨⟨by decide, rfl⟩, StreamAdvice_all_failed envMixed m0 reqBothFail (by decide) rfl⟩

/-- C3: for every streaming request with at least one successful city, the
generator is invoked exactly once, with the streaming prompt built from the
summaries of exactly the successful cities in original input order (a city
contributes a summary exactly when it succeeds, and a failed-city entry
exactly when it fails — failures are recorded and skipped, never aborting
the loop). -/
theorem StreamAdvice_prompt_successful_only (env : Env) (m : Metrics)
    (req : AdvisorRequest) (h : ∃ c ∈ req.cities, cityFails env c = false) :
    (StreamAdvice env m req).genPrompts =
      [streamPrompt (req.cities.filterMap (citySummary? env))] ∧
    (∀ c : CityData, (cityFails env c = false ↔ citySummary? env c ≠ none) ∧
      (cityFails env c = true ↔ cityFailEntry? env c ≠ none)) ∧
    (collectWeatherStream env req.cities).2 = req.cities.filterMap (cityFailEntry? env) := by
  have hne : req.cities.filterMap (citySummary? env) ≠ [] := by
    rcases h with ⟨c, hc, hcf⟩
    have hsome : citySummary? env c ≠ none := (cityFails_false_iff_summary env c).mp hcf
    rcases Option.ne_none_iff_exists.mp hsome with ⟨s, hs⟩
    intro hnil
    have hmem : s ∈ req.cities.filterMap (citySummary? env) :=
      List.mem_filterMap.mpr ⟨c, hc, hs.symm⟩
    rw [hnil] at hmem
    simp at hmem
  refine ⟨?_, fun c => ⟨cityFails_false_iff_summary env c, cityFails_true_iff_entry env c⟩,
    by rw [collectWeatherStream_eq]⟩
  unfold StreamAdvice
  rw [collectWeatherStream_eq]
  have hlen : ¬(req.cities.filterMap (citySummary? env)).length = 0 := by
    simpa [List.length_eq_zero] using hne
  rcases hg : (streamAdviceGeneration env (req.cities.filterMap (citySummary? env))).result
    with e | u
  · simp [hlen, hg, streamAdviceGeneration_prompts]
  · simp [hlen, hg, streamAdviceGeneration_prompts]

/-- Witness for C3: Paris succeeds while Atlantis fails; the prompt is built
from the Paris summary only. -/
theorem StreamAdvice_prompt_successful_only_witness :
    (∃ c ∈ reqParisAtlantis.cities, cityFails envMixed c = false) ∧
    ((StreamAdvice envMixed m0 reqParisAtlantis).genPrompts =
      [streamPrompt (reqParisAtlantis.cities.filterMap (citySummary? envMixed))] ∧
    (∀ c : CityData, (cityFails envMixed c = false ↔ citySummary? envMixed c ≠ none) ∧
      (cityFails envMixed c = true ↔ cityFailEntry? envMixed c ≠ none)) ∧
    (collectWeatherStream envMixed reqParisAtlantis.cities).2 =
      reqParisAtlantis.cities.filterMap (cityFailEntry? envMixed)) :=
  ⟨⟨{ location := "Paris" }, by decide, by rfl⟩,
    StreamAdvice_prompt_successful_only envMixed m0 reqParisAtlantis
      ⟨{ location := "Paris" }, by decide, by rfl⟩⟩

/-- C4: while relaying the generator's incremental sequence, only the
specific end-of-data condition is translated into the completion marker: a
terminal chunk can only be emitted when the final iteration error passes the
end-of-data test, and whenever it does not, the call halts with an error and
emits no terminal chunk — specifically the wrapped `streaming failed`
generation error when every fragment send succeeded. -/
theorem streamGen_eof_vs_error (env : Env) (weatherData : List String) :
    ((∃ ch ∈ (streamAdviceGeneration env weatherData).sent, ch.isComplete = true) →
      isEndOfDataErr (env.generateContentStream (streamPrompt weatherData)).finalErr = true) ∧
    (isEndOfDataErr (env.generateContentStream (streamPrompt weatherData)).finalErr = false →
      (∃ e, (streamAdviceGeneration env weatherData).result = Except.error e) ∧
      (∀ ch ∈ (streamAdviceGeneration env weatherData).sent, ch.isComplete = false)) ∧
    (isEndOfDataErr (env.generateContentStream (streamPrompt weatherData)).finalErr = false →
      env.sendFail = none →
      (streamAdviceGeneration env weatherData).result =
        Except.error ("streaming failed: " ++
          (env.generateContentStream (streamPrompt weatherData)).finalErr)) := by
  rcases hr : sendChunks env.sendFail 0
      (fragmentsOfResponses (env.generateContentStream (streamPrompt weatherData)).responses)
    with ⟨sent, r⟩
  have hnc : ∀ ch ∈ sent, ch.isComplete = false := by
    have hall := sendChunks_not_complete env.sendFail 0
      (fragmentsOfResponses (env.generateContentStream (streamPrompt weatherData)).responses)
    rw [hr] at hall
    exact hall
  rcases r with e | i
  · have hout : streamAdviceGeneration env weatherData =
        { sent := sent, result := Except.error e,
          genPrompts := [streamPrompt weatherData] } := by
      simp [streamAdviceGeneration, hr]
    refine ⟨?_, fun _ => ⟨⟨e, by rw [hout]⟩, ?_⟩, fun heof hnone => ?_⟩
    · rintro ⟨ch, hch, hcomp⟩
      simp only [hout] at hch
      have h1 := hnc ch hch
      rw [hcomp] at h1
      simp at h1
    · intro ch hch
      simp only [hout] at hch
      exact hnc ch hch
    · exfalso
      rw [hnone, sendChunks_none] at hr
      simp at hr
  · rcases heof : isEndOfDataErr
        (env.generateContentStream (streamPrompt weatherData)).finalErr with hv | hv
    · have hout : streamAdviceGeneration env weatherData =
          { sent := sent,
            result := Except.error ("streaming failed: " ++
              (env.generateContentStream (streamPrompt weatherData)).finalErr),
            genPrompts := [streamPrompt weatherData] } := by
        simp [streamAdviceGeneration, hr, heof]
      refine ⟨?_, fun _ => ⟨⟨"streaming failed: " ++
          (env.generateContentStream (streamPrompt weatherData)).finalErr,
        by rw [hout]⟩, ?_⟩, fun _ _ => by rw [hout]⟩
      · rintro ⟨ch, hch, hcomp⟩
        simp only [hout] at hch
        have h1 := hnc ch hch
        rw [hcomp] at h1
        simp at h1
      · intro ch hch
        simp only [hout] at hch
        exact hnc ch hch
    · refine ⟨fun _ => rfl, fun hfalse => ?_, fun hfalse _ => ?_⟩
      · simp at hfalse
      · simp at hfalse

/-- Witness for C4: a non-end-of-data iteration error halts the stream with
the wrapped generation error. -/
theorem streamGen_eof_vs_error_witness :
    (isEndOfDataErr (envStreamErr.generateContentStream (streamPrompt [])).finalErr = false ∧
      envStreamErr.sendFail = none) ∧
    (streamAdviceGeneration envStreamErr []).result =
      Except.error ("streaming failed: " ++
        (envStreamErr.generateContentStream (streamPrompt [])).finalErr) :=
  ⟨⟨rfl, rfl⟩, (streamGen_eof_vs_error envStreamErr []).2.2 rfl rfl⟩

/-- A successful run of the streaming generation helper delivered exactly
the generator's fragments in order, as non-terminal chunks, followed by the
single empty terminal chunk. -/
theorem streamAdviceGeneration_ok (env : Env) (wd : List String)
    (h : (streamAdviceGeneration env wd).result = Except.ok ()) :
    (streamAdviceGeneration env wd).sent =
      (fragmentsOfResponses (env.generateContentStream (streamPrompt wd)).responses).map
        (fun t => { chunk := t, isComplete := false }) ++
      [{ chunk := "", isComplete := true }] := by
  rcases hr : sendChunks env.sendFail 0
      (fragmentsOfResponses (env.generateContentStream (streamPrompt wd)).responses)
    with ⟨sent, r⟩
  rcases r with e | i
  · exfalso
    have hout : (streamAdviceGeneration env wd).result = Except.error e := by
      simp [streamAdviceGeneration, hr]
    rw [h] at hout
    simp at hout
  · rcases heof : isEndOfDataErr (env.generateContentStream (streamPrompt wd)).finalErr
      with hv | hv
    · exfalso
      have hout : (streamAdviceGeneration env wd).result =
          Except.error ("streaming failed: " ++
            (env.generateContentStream (streamPrompt wd)).finalErr) := by
        simp [streamAdviceGeneration, hr, heof]
      rw [h] at hout
      simp at hout
    · rcases hsf : sendFailsAt env.sendFail i with hv2 | hv2
      · have hok := sendChunks_ok env.sendFail 0
          (fragmentsOfResponses (env.generateContentStream (streamPrompt wd)).responses) i
          (by rw [hr])
        have hsent : sent =
            (fragmentsOfResponses (env.generateContentStream (streamPrompt wd)).responses).map
              (fun t => { chunk := t, isComplete := false }) := by
          have h1 := hok.1
          rw [hr] at h1
          exact h1
        have hout : (streamAdviceGeneration env wd).sent =
            sent ++ [{ chunk := "", isComplete := true }] := by
          simp [streamAdviceGeneration, hr, heof, hsf]
        rw [hout, hsent]
      · exfalso
        have hout : (streamAdviceGeneration env wd).result =
            Except.error (sendFailMsg env.sendFail) := by
          simp [streamAdviceGeneration, hr, heof, hsf]
        rw [h] at hout
        simp at hout

/-- C5: when a streaming call succeeds, at most one terminal chunk is ever
emitted, it is always the last chunk; in the non-diagnostic case the emitted
sequence is exactly the generator's fragments in emission order as
non-terminal chunks followed by the single empty terminal chunk. -/
theorem StreamAdvice_chunk_order (env : Env) (m : Metrics) (req : AdvisorRequest)
    (h : (StreamAdvice env m req).result = Except.ok ()) :
    (∃ body lastChunk, (StreamAdvice env m req).sent = body ++ [lastChunk] ∧
      lastChunk.isComplete = true ∧ ∀ ch ∈ body, ch.isComplete = false) ∧
    ((collectWeatherStream env req.cities).1 ≠ [] →
      (StreamAdvice env m req).sent =
        (fragmentsOfResponses
            (env.generateContentStream
              (streamPrompt (collectWeatherStream env req.cities).1)).responses).map
          (fun t => { chunk := t, isComplete := false }) ++
        [{ chunk := "", isComplete := true }]) := by
  rcases hcol : collectWeatherStream env req.cities with ⟨ws, fs⟩
  by_cases hlen : ws.length = 0
  · rcases hsf : sendFailsAt env.sendFail 0 with hv | hv
    · have hout : StreamAdvice env m req =
          { sent := [{ chunk := diagnosticMessage fs, isComplete := true }],
            result := Except.ok (), metrics := m.incSuccess.observe, genPrompts := [] } := by
        unfold StreamAdvice
        rw [hcol]
        simp [hlen, hsf]
      refine ⟨⟨[], { chunk := diagnosticMessage fs, isComplete := true },
        by rw [hout]; rfl, rfl, by simp⟩, ?_⟩
      intro hne
      exact absurd (List.length_eq_zero.mp hlen) hne
    · exfalso
      have hout : (StreamAdvice env m req).result =
          Except.error (sendFailMsg env.sendFail) := by
        unfold StreamAdvice
        rw [hcol]
        simp [hlen, hsf]
      rw [h] at hout
      simp at hout
  · have hg : (streamAdviceGeneration env ws).result = Except.ok () := by
      rcases hgr : (streamAdviceGeneration env ws).result with e | u
      · exfalso
        have hout : (StreamAdvice env m req).result =
            Except.error ("advice generation failed: " ++ e) := by
          unfold StreamAdvice
          rw [hcol]
          simp [hlen, hgr]
        rw [h] at hout
        simp at hout
      · rfl
    have hsent := streamAdviceGeneration_ok env ws hg
    have hout : (StreamAdvice env m req).sent = (streamAdviceGeneration env ws).sent := by
      unfold StreamAdvice
      rw [hcol]
      simp [hlen, hg]
    constructor
    · refine ⟨(fragmentsOfResponses
          (env.generateContentStream (streamPrompt ws)).responses).map
            (fun t => { chunk := t, isComplete := false }),
        { chunk := "", isComplete := true }, by rw [hout, hsent], rfl, ?_⟩
      intro ch hch
      rcases List.mem_map.mp hch with ⟨t, _, rfl⟩
      rfl
    · intro _
      rw [hout, hsent]

/-- Witness for C5: the all-succeeding environment streams two fragments and
then the single empty terminal chunk. -/
theorem StreamAdvice_chunk_order_witness :
    ((StreamAdvice envAllOk m0 reqParis).result = Except.ok ()) ∧
    ((∃ body lastChunk, (StreamAdvice envAllOk m0 reqParis).sent = body ++ [lastChunk] ∧
      lastChunk.isComplete = true ∧ ∀ ch ∈ body, ch.isComplete = false) ∧
    ((collectWeatherStream envAllOk reqParis.cities).1 ≠ [] →
      (StreamAdvice envAllOk m0 reqParis).sent =
        (fragmentsOfResponses
            (envAllOk.generateContentStream
              (streamPrompt (collectWeatherStream envAllOk reqParis.cities).1)).responses).map
          (fun t => { chunk := t, isComplete := false }) ++
        [{ chunk := "", isComplete := true }])) :=
  ⟨rfl, StreamAdvice_chunk_order envAllOk m0 reqParis rfl⟩

/-- C6: in both modes the prompt is the fixed instructional template around
the newline-joined per-city summaries, each summary being exactly
`City: <location>, Temp: <temperature to 1 decimal>°C, Condition:
<condition>, Humidity: <humidity>%, Wind: <wind to 1 decimal> m/s`; the
unary template additionally asks for places to visit if good weather, the
streaming template does not, and both ask for summary, clothing advice,
activity suggestions, warnings, and conciseness. -/
theorem prompt_formats (loc : String) (w : WeatherResponse) (weatherData : List String) :
    formatWeatherInfo loc w = specWeatherSummary loc w ∧
    unaryPrompt weatherData = specUnaryPrompt weatherData ∧
    streamPrompt weatherData = specStreamPrompt weatherData ∧
    strContains unaryPromptFmt "places to visit if good weather" = true ∧
    strContains streamPromptFmt "places to visit" = false ∧
    strContains unaryPromptFmt "summary, clothing advice, activity suggestions" = true ∧
    strContains streamPromptFmt "summary, clothing advice, activity suggestions" = true ∧
    strContains unaryPromptFmt "warnings. Keep it concise." = true ∧
    strContains streamPromptFmt "warnings. Keep it concise." = true := by
  refine ⟨?_, ?_, ?_, by rfl, by rfl, by rfl, by rfl, by rfl, by rfl⟩
  · refine String.ext ?_
    simp only [specWeatherSummary, String.data_append, List.append_assoc]
    exact rfl
  · refine String.ext ?_
    simp only [specUnaryPrompt, String.data_append, List.append_assoc]
    exact rfl
  · refine String.ext ?_
    simp only [specStreamPrompt, String.data_append, List.append_assoc]
    exact rfl

/-- C8 counterexample: on the all-succeeding environment and the Paris
request, the two unary variants pass different prompts to the generator
(the summaries render the degree sign as `°` versus `Â°`), refuting
byte-identical prompts. -/
theorem getAdvice_variants_differ :
    (getAdvice envAllOk m0 reqParis).genPrompts ≠
      (getAdviceV2 envAllOk m0 reqParis).genPrompts := by
  decide

/-- C8 amended: the two unary variants share control flow and error
behaviour — on any request with a failing city they return identical
outcomes and the generator is never involved — but their prompts are not
byte-identical: the per-city summaries differ exactly at the degree sign,
which the first variant renders as `°` and the second as `Â°`. -/
theorem getAdvice_variants_agree_up_to_degree (env : Env) (m : Metrics)
    (req : AdvisorRequest) (loc : String) (w : WeatherResponse)
    (h : ∃ c ∈ req.cities, cityFails env c = true) :
    getAdviceV2 env m req = getAdvice env m req ∧
    (∃ x y : String, formatWeatherInfo loc w = x ++ ("°" ++ y) ∧
      formatWeatherInfoV2 loc w = x ++ ("Â°" ++ y)) := by
  constructor
  · unfold getAdviceV2 getAdvice getAdviceWith
    rw [collectWeatherUnary_fmt_indep env weatherInfoFmtV2 weatherInfoFmt m req.cities h]
  · refine ⟨"City: " ++ loc ++ ", Temp: " ++ fmtF1 w.temperatureTenths,
      "C, Condition: " ++ w.description ++ ", Humidity: " ++ toString w.humidity ++
        "%, Wind: " ++ fmtF1 w.windTenths ++ " m/s", ?_, ?_⟩
    · refine String.ext ?_
      simp only [String.data_append, List.append_assoc]
      exact rfl
    · refine String.ext ?_
      simp only [String.data_append, List.append_assoc]
      exact rfl

/-- Witness for the amended C8: with Atlantis failing resolution the two
variants coincide; the Paris summary decomposition exhibits the differing
degree-sign bytes. -/
theorem getAdvice_variants_agree_up_to_degree_witness :
    (∃ c ∈ reqAtlantis.cities, cityFails envFailGeo c = true) ∧
    (getAdviceV2 envFailGeo m0 reqAtlantis = getAdvice envFailGeo m0 reqAtlantis ∧
      (∃ x y : String, formatWeatherInfo "Paris" wParis = x ++ ("°" ++ y) ∧
        formatWeatherInfoV2 "Paris" wParis = x ++ ("Â°" ++ y))) :=
  ⟨⟨{ location := "Atlantis" }, by simp [reqAtlantis], by rfl⟩,
    getAdvice_variants_agree_up_to_degree envFailGeo m0 reqAtlantis "Paris" wParis
      ⟨{ location := "Atlantis" }, by simp [reqAtlantis], by rfl⟩⟩

/-- C10: the unary path concatenates the text parts of only the first
candidate (silently skipping non-text parts) while the streaming path relays
the text parts of every candidate of each incremental response. -/
theorem candidate_handling_asymmetry (env : Env) (weatherData : List String)
    (resp : GenResponse) (c : GenCandidate) (rest : List GenCandidate)
    (hresp : env.generateContent (unaryPrompt weatherData) = Except.ok resp)
    (hc : resp.candidates = c :: rest) :
    (generateAdvice env weatherData).1 = Except.ok (concatTextParts c.parts) ∧
    fragmentsOfResponse resp = textsOfParts c.parts ++ fragmentsOfCandidates rest ∧
    (env.generateContentStream (streamPrompt weatherData) =
        { responses := [resp], finalErr := "EOF" } →
      env.sendFail = none →
      (streamAdviceGeneration env weatherData).sent =
        (textsOfParts c.parts ++ fragmentsOfCandidates rest).map
          (fun t => { chunk := t, isComplete := false }) ++
        [{ chunk := "", isComplete := true }]) ∧
    concatTextParts [GenPart.text "A", GenPart.nonText, GenPart.text "B"] = "AB" ∧
    fragmentsOfCandidates
        [{ parts := [GenPart.text "A"] }, { parts := [GenPart.text "B"] }] = ["A", "B"] := by
  refine ⟨?_, ?_, ?_, by rfl, by rfl⟩
  · simp [generateAdvice, hresp, hc]
  · simp [fragmentsOfResponse, hc, fragmentsOfCandidates]
  · intro hstream hnone
    have heof : isEndOfDataErr "EOF" = true := rfl
    simp [streamAdviceGeneration, hstream, hnone, sendChunks_none, sendFailsAt, heof,
      fragmentsOfResponses, fragmentsOfResponse, hc, fragmentsOfCandidates]

/-- Witness for C10: a two-candidate response yields only the first
candidate's text in the unary mode but both candidates' texts as streamed
fragments. -/
theorem candidate_handling_asymmetry_witness :
    (envTwoCandidates.generateContent (unaryPrompt []) =
        Except.ok { candidates := [{ parts := [GenPart.text "A"] },
                                   { parts := [GenPart.text "B"] }] } ∧
      ({ candidates := [{ parts := [GenPart.text "A"] },
                        { parts := [GenPart.text "B"] }] } : GenResponse).candidates =
        { parts := [GenPart.text "A"] } :: [{ parts := [GenPart.text "B"] }]) ∧
    ((generateAdvice envTwoCandidates []).1 =
        Except.ok (concatTextParts ({ parts := [GenPart.text "A"] } : GenCandidate).parts) ∧
      fragmentsOfResponse
          { candidates := [{ parts := [GenPart.text "A"] },
                           { parts := [GenPart.text "B"] }] } =
        textsOfParts ({ parts := [GenPart.text "A"] } : GenCandidate).parts ++
          fragmentsOfCandidates [{ parts := [GenPart.text "B"] }] ∧
      (envTwoCandidates.generateContentStream (streamPrompt []) =
          { responses := [{ candidates := [{ parts := [GenPart.text "A"] },
                                           { parts := [GenPart.text "B"] }] }],
            finalErr := "EOF" } →
        envTwoCandidates.sendFail = none →
        (streamAdviceGeneration envTwoCandidates []).sent =
          (textsOfParts ({ parts := [GenPart.text "A"] } : GenCandidate).parts ++
              fragmentsOfCandidates [{ parts := [GenPart.text "B"] }]).map
            (fun t => { chunk := t, isComplete := false }) ++
          [{ chunk := "", isComplete := true }]) ∧
      concatTextParts [GenPart.text "A", GenPart.nonText, GenPart.text "B"] = "AB" ∧
      fragmentsOfCandidates
          [{ parts := [GenPart.text "A"] }, { parts := [GenPart.text "B"] }] = ["A", "B"]) :=
  ⟨⟨rfl, rfl⟩,
    candidate_handling_asymmetry envTwoCandidates []
      { candidates := [{ parts := [GenPart.text "A"] }, { parts := [GenPart.text "B"] }] }
      { parts := [GenPart.text "A"] } [{ parts := [GenPart.text "B"] }] rfl rfl⟩

end WeatherAdvisor
